import Mathlib

/-!
Verification development for `compile.py`, a multi-target build orchestrator:
it compiles a fixed source list into object files (concurrently), archives the
objects into a static library, and links two executables per target, once for
the desktop toolchain and once per Android architecture.

The embedding is a shallow one.  External effects (queue puts, process
invocations) are recorded as explicit events; the OS is modelled by an `Env`
giving, for each path, whether it exists, and for each command line, the exit
code `subprocess.run` would report.  Exceptions (`RuntimeError`) are modelled
by `Option String` results carrying the exception message.  The concurrent
compile tasks of one target are pure and independent, so they are recorded as
a list of per-task traces in submission order; the archive/link phase, which
the script runs strictly after the `future.result()` barrier, is a single
sequential trace.  The top-level banner `print`s and `os.system('cls')` are
pure terminal I/O with no bearing on any property and are not modelled.
-/

namespace CompilePy

/-- Directory constants of `compile.py`. -/
def BIN_DIR : String := "bin"

def OBJ_DIR : String := "obj"

def ANDROID_BIN_DIR : String := "android_bin"

def ANDROID_OBJ_DIR : String := "android_obj"

/-- One entry of the `ARCHITECTURES` dict: target triple, API level, subdir. -/
structure ArchConfig where
  target : String
  api : String
  subdir : String
deriving DecidableEq

/-- The `ARCHITECTURES` dict, in insertion (iteration) order. -/
def ARCHITECTURES : List (String × ArchConfig) :=
  [("armv7", ⟨"armv7a-linux-androideabi", "21", "armv7"⟩),
   ("aarch64", ⟨"aarch64-linux-android", "21", "aarch64"⟩)]

/-- `PYCXX_FILES`. -/
def PYCXX_FILES : List String :=
  ["bytecode.cpp", "data.cpp", "pyc_code.cpp", "pyc_module.cpp",
   "pyc_numeric.cpp", "pyc_object.cpp", "pyc_sequence.cpp", "pyc_string.cpp"]

/-- `PYTHON_VERSION_FILES`: the comprehension over `range(1,4) x range(0,14)`. -/
def PYTHON_VERSION_FILES : List String :=
  (List.range' 1 3).flatMap (fun major =>
    (List.range 14).map (fun minor =>
      "bytes/python_" ++ toString major ++ "_" ++ toString minor ++ ".cpp"))

def DESKTOP_CXX : String := "g++"

def DESKTOP_CXX_FLAGS : String := "-std=c++11 -Wall -Wextra -Wno-error=shadow -Werror"

def DESKTOP_INCLUDE_FLAGS : String := "-I."

def ANDROID_NDK_PATH : String := "C:\\Android\\ndk\\27.2.12479018"

/-- `os.path.join` on the script's host (Windows separator). -/
def pathJoin (a b : String) : String := a ++ "\\" ++ b

def ANDROID_TOOLCHAIN : String :=
  pathJoin (pathJoin (pathJoin (pathJoin ANDROID_NDK_PATH "toolchains") "llvm") "prebuilt")
    "windows-x86_64"

/-- `os.path.basename` (everything after the last separator; the host splits
on both `\` and `/`). -/
def basename (p : String) : String :=
  String.mk (p.data.foldl (fun acc c => if c = '\\' ∨ c = '/' then [] else acc ++ [c]) [])

/-- Root part of `os.path.splitext`: everything before the last dot, the whole
string when there is none (the leading-dot special case never arises here). -/
def splitextRoot (p : String) : String :=
  match p.data.reverse.dropWhile (fun c => c ≠ '.') with
  | [] => p
  | _ :: rest => String.mk rest.reverse

/-- Object path derived for a source: `os.path.join(objDir, splitext(basename(src))[0] + ".o")`. -/
def objFor (objDir src : String) : String :=
  pathJoin objDir (splitextRoot (basename src) ++ ".o")

/-- The colour tag looked up in the `levels` dict of `log`; `''` for unknown levels. -/
def levelTag (level : String) : String :=
  if level = "INFO" then "\x1b[94m[INFO]\x1b[0m"
  else if level = "WARNING" then "\x1b[93m[WARNING]\x1b[0m"
  else if level = "ERROR" then "\x1b[91m[ERROR]\x1b[0m"
  else ""

/-- The string `log` enqueues: the f-string tag-space-message. -/
def logMsg (message : String) (level : String) : String :=
  levelTag level ++ " " ++ message

/-- The consumer loop of `log_worker`: prints queue entries in order until the
first `"STOP"` is dequeued; returns the printed messages. -/
def log_worker (queue : List String) : List String :=
  queue.takeWhile (fun m => m != "STOP")

/-- The OS as seen by the script: which paths exist, and the exit code each
command line would return from `subprocess.run`. -/
structure Env where
  pathExists : String → Bool
  runExit : String → Int

/-- One observable external effect: a `log_queue.put` of a formatted message,
or a `subprocess.run` of a command line. -/
inductive Event where
  | put (msg : String)
  | run (cmd : String)
deriving DecidableEq

/-- The compile command f-string of `compile_source`. -/
def compileCommand (compiler cxx_flags include_flags source_file output_file : String) : String :=
  compiler ++ " " ++ cxx_flags ++ " " ++ include_flags ++ " -c " ++ source_file ++ " -o "
    ++ output_file

/-- `compile_source`: skip (WARNING) when the source is missing, otherwise log,
run the compiler, and on a non-zero exit log an ERROR and raise. -/
def compile_source (env : Env) (compiler cxx_flags include_flags source_file output_file : String) :
    List Event × Option String :=
  if env.pathExists source_file = false then
    ([Event.put (logMsg ("Skipping missing file: " ++ source_file) "WARNING")], none)
  else
    let command := compileCommand compiler cxx_flags include_flags source_file output_file
    if env.runExit command ≠ 0 then
      ([Event.put (logMsg ("Compiling " ++ source_file ++ "...") "INFO"),
        Event.run command,
        Event.put (logMsg ("Failed to compile " ++ source_file) "ERROR")],
       some ("Failed to compile " ++ source_file))
    else
      ([Event.put (logMsg ("Compiling " ++ source_file ++ "...") "INFO"),
        Event.run command], none)

/-- The archive command f-string of `create_archive`. -/
def archiveCommand (output_archive : String) (object_files : List String) : String :=
  "ar rcs " ++ output_archive ++ " " ++ String.intercalate " " object_files

/-- `create_archive`: log, run `ar rcs`, and on a non-zero exit log an ERROR
(and raise) with the fixed message `Failed to create archive`. -/
def create_archive (env : Env) (output_archive : String) (object_files : List String) :
    List Event × Option String :=
  let command := archiveCommand output_archive object_files
  if env.runExit command ≠ 0 then
    ([Event.put (logMsg "Creating archive..." "INFO"),
      Event.run command,
      Event.put (logMsg "Failed to create archive" "ERROR")],
     some "Failed to create archive")
  else
    ([Event.put (logMsg "Creating archive..." "INFO"), Event.run command], none)

/-- The link command f-string of `compile_executable`. -/
def linkCommand (compiler cxx_flags include_flags : String) (source_files : List String)
    (libraries output_executable : String) : String :=
  compiler ++ " " ++ cxx_flags ++ " " ++ include_flags ++ " "
    ++ String.intercalate " " source_files ++ " " ++ libraries ++ " -o " ++ output_executable

/-- `compile_executable`: log, run the linker, and on a non-zero exit log an
ERROR naming the output executable, then raise. -/
def compile_executable (env : Env) (compiler cxx_flags include_flags output_executable : String)
    (source_files : List String) (libraries : String) : List Event × Option String :=
  let command := linkCommand compiler cxx_flags include_flags source_files libraries
    output_executable
  if env.runExit command ≠ 0 then
    ([Event.put (logMsg ("Linking " ++ output_executable ++ "...") "INFO"),
      Event.run command,
      Event.put (logMsg ("Failed to link " ++ output_executable) "ERROR")],
     some ("Failed to link " ++ output_executable))
  else
    ([Event.put (logMsg ("Linking " ++ output_executable ++ "...") "INFO"),
      Event.run command], none)

/-- The source list compiled for every target: `PYCXX_FILES + PYTHON_VERSION_FILES`. -/
def allSources : List String := PYCXX_FILES ++ PYTHON_VERSION_FILES

/-- Result of one target's pipeline.  `dirs` are the `os.makedirs` calls;
`objectFiles` is the `object_files` list built in submission order; `tasks`
are the per-source `compile_source` outcomes in submission order (their event
interleaving at runtime is scheduler-dependent, but each task's own trace and
outcome are deterministic); `archiveInputs` is the filtered list handed to
`create_archive` (`none` when the archive stage was never reached);
`postEvents` is the sequential trace after the `future.result()` barrier;
`error` is the `RuntimeError` message escaping the pipeline, if any. -/
structure PipelineRun where
  dirs : List String
  objectFiles : List String
  tasks : List (List Event × Option String)
  archiveInputs : Option (List String)
  postEvents : List Event
  error : Option String
deriving DecidableEq

/-- The `for future in futures: future.result()` barrier: the first raised
task exception, in submission order. -/
def firstError (tasks : List (List Event × Option String)) : Option String :=
  tasks.findSome? (fun t => t.2)

/-- The archive-then-link tail shared by the desktop build and
`build_android_architecture`: one `create_archive`, then `compile_executable`
for the pycdas product, then for the pycdc product, each raise aborting the
rest. -/
def archiveAndLink (env : Env) (compiler cxx_flags include_flags library : String)
    (inputs : List String) (exe1 exe2 : String) : List Event × Option String :=
  let a := create_archive env library inputs
  match a.2 with
  | some e => (a.1, some e)
  | none =>
    let l1 := compile_executable env compiler cxx_flags include_flags exe1 ["pycdas.cpp"] library
    match l1.2 with
    | some e => (a.1 ++ l1.1, some e)
    | none =>
      let l2 := compile_executable env compiler cxx_flags include_flags exe2
        ["pycdc.cpp", "ASTree.cpp", "ASTNode.cpp"] library
      (a.1 ++ l1.1 ++ l2.1, l2.2)

def androidBinDir (output_subdir : String) : String := pathJoin ANDROID_BIN_DIR output_subdir

def androidObjDir (output_subdir : String) : String := pathJoin ANDROID_OBJ_DIR output_subdir

/-- The compiler path `os.path.join(ANDROID_TOOLCHAIN, "bin", f"{target}{api}-clang++")`. -/
def androidCompiler (target api : String) : String :=
  pathJoin (pathJoin ANDROID_TOOLCHAIN "bin") (target ++ api ++ "-clang++")

def androidIncludeFlags : String :=
  "-I. -I" ++ pathJoin ANDROID_NDK_PATH (pathJoin "sources" "android")

def androidCxxFlags : String := "-std=c++11 -Wall -Wextra"

/-- The per-source compile tasks submitted to the executor for one Android
architecture, in submission order. -/
def androidTasks (env : Env) (target api output_subdir : String) :
    List (List Event × Option String) :=
  allSources.map (fun src =>
    compile_source env (androidCompiler target api) androidCxxFlags androidIncludeFlags src
      (objFor (androidObjDir output_subdir) src))

def androidLibrary (output_subdir : String) : String :=
  pathJoin (androidObjDir output_subdir) "libpycxx.a"

/-- The filtered archive input `[obj for obj in object_files if os.path.exists(obj)]`. -/
def androidArchiveInputs (env : Env) (output_subdir : String) : List String :=
  (allSources.map (objFor (androidObjDir output_subdir))).filter
    (fun obj => env.pathExists obj)

/-- The archive/link tail of one Android architecture, as one pair. -/
def androidTail (env : Env) (target api output_subdir : String) : List Event × Option String :=
  archiveAndLink env (androidCompiler target api) androidCxxFlags androidIncludeFlags
    (androidLibrary output_subdir) (androidArchiveInputs env output_subdir)
    (pathJoin (androidBinDir output_subdir) "pycdas")
    (pathJoin (androidBinDir output_subdir) "pycdc")

/-- `build_android_architecture(arch, target, api, output_subdir)`.  The first
parameter `arch` is accepted (as in the script) and never read. -/
def build_android_architecture (env : Env) (arch target api output_subdir : String) :
    PipelineRun :=
  match firstError (androidTasks env target api output_subdir) with
  | some e =>
    { dirs := [androidBinDir output_subdir, androidObjDir output_subdir],
      objectFiles := allSources.map (objFor (androidObjDir output_subdir)),
      tasks := androidTasks env target api output_subdir,
      archiveInputs := none, postEvents := [], error := some e }
  | none =>
    { dirs := [androidBinDir output_subdir, androidObjDir output_subdir],
      objectFiles := allSources.map (objFor (androidObjDir output_subdir)),
      tasks := androidTasks env target api output_subdir,
      archiveInputs := some (androidArchiveInputs env output_subdir),
      postEvents := (androidTail env target api output_subdir).1,
      error := (androidTail env target api output_subdir).2 }

/-- The desktop compile tasks of `__main__`, in submission order. -/
def desktopTasks (env : Env) : List (List Event × Option String) :=
  allSources.map (fun src =>
    compile_source env DESKTOP_CXX DESKTOP_CXX_FLAGS DESKTOP_INCLUDE_FLAGS src
      (objFor OBJ_DIR src))

def desktopLibrary : String := pathJoin OBJ_DIR "libpycxx.a"

/-- The desktop archive input `[obj for obj in desktop_object_files if os.path.exists(obj)]`. -/
def desktopArchiveInputs (env : Env) : List String :=
  (allSources.map (objFor OBJ_DIR)).filter (fun obj => env.pathExists obj)

/-- The desktop archive/link tail, as one pair. -/
def desktopTail (env : Env) : List Event × Option String :=
  archiveAndLink env DESKTOP_CXX DESKTOP_CXX_FLAGS DESKTOP_INCLUDE_FLAGS desktopLibrary
    (desktopArchiveInputs env) (pathJoin BIN_DIR "pycdas.exe") (pathJoin BIN_DIR "pycdc.exe")

/-- The desktop section of `__main__` (lines 149-168), shaped exactly like
`build_android_architecture` but with the desktop toolchain and `.exe` outputs. -/
def desktopBuild (env : Env) : PipelineRun :=
  match firstError (desktopTasks env) with
  | some e =>
    { dirs := [BIN_DIR, OBJ_DIR], objectFiles := allSources.map (objFor OBJ_DIR),
      tasks := desktopTasks env,
      archiveInputs := none, postEvents := [], error := some e }
  | none =>
    { dirs := [BIN_DIR, OBJ_DIR], objectFiles := allSources.map (objFor OBJ_DIR),
      tasks := desktopTasks env,
      archiveInputs := some (desktopArchiveInputs env),
      postEvents := (desktopTail env).1, error := (desktopTail env).2 }

/-- One loop iteration's call
`build_android_architecture(config["target"], config["target"], config["api"],
config["subdir"])` (the site at line 174 passes `config["target"]` twice). -/
def buildOf (env : Env) (config : ArchConfig) : PipelineRun :=
  build_android_architecture env config.target config.target config.api config.subdir

/-- The `for arch, config in ARCHITECTURES.items()` loop: each iteration calls
`build_android_architecture(config["target"], config["target"], config["api"],
config["subdir"])`; an uncaught raise ends the loop (and the program). -/
def runAndroidLoop (env : Env) (archs : List (String × ArchConfig)) :
    List (String × PipelineRun) × Option String :=
  match archs with
  | [] => ([], none)
  | (arch, config) :: rest =>
    match (buildOf env config).error with
    | some e => ([(arch, buildOf env config)], some e)
    | none =>
      ((arch, buildOf env config) :: (runAndroidLoop env rest).1,
       (runAndroidLoop env rest).2)

/-- Outcome of one whole run of `__main__`.  `sentinel` records whether
`log_queue.put("STOP")` was executed, `joined` whether `log_thread.join()`
was; `error` is the uncaught exception ending the run, if any; `exitZero`
is whether the interpreter exits with status 0 (an uncaught exception exits
non-zero). -/
structure MainRun where
  desktop : PipelineRun
  android : List (String × PipelineRun)
  error : Option String
  sentinel : Bool
  joined : Bool
  exitZero : Bool

/-- `__main__`: desktop build, then the Android loop, then sentinel + join.
An uncaught `RuntimeError` from any stage skips everything after it,
including the sentinel enqueue and the join (the log thread is a daemon). -/
def main (env : Env) : MainRun :=
  match (desktopBuild env).error with
  | some e =>
    { desktop := desktopBuild env, android := [], error := some e,
      sentinel := false, joined := false, exitZero := false }
  | none =>
    match (runAndroidLoop env ARCHITECTURES).2 with
    | some e =>
      { desktop := desktopBuild env, android := (runAndroidLoop env ARCHITECTURES).1,
        error := some e, sentinel := false, joined := false, exitZero := false }
    | none =>
      { desktop := desktopBuild env, android := (runAndroidLoop env ARCHITECTURES).1,
        error := none, sentinel := true, joined := true, exitZero := true }

/-- Link command of the first desktop product (`bin/pycdas.exe`). -/
def desktopLink1Cmd : String :=
  linkCommand DESKTOP_CXX DESKTOP_CXX_FLAGS DESKTOP_INCLUDE_FLAGS ["pycdas.cpp"]
    desktopLibrary (pathJoin BIN_DIR "pycdas.exe")

/-- Link command of the second desktop product (`bin/pycdc.exe`). -/
def desktopLink2Cmd : String :=
  linkCommand DESKTOP_CXX DESKTOP_CXX_FLAGS DESKTOP_INCLUDE_FLAGS
    ["pycdc.cpp", "ASTree.cpp", "ASTNode.cpp"] desktopLibrary (pathJoin BIN_DIR "pycdc.exe")

/-! Concrete environments used by witnesses and counterexamples. -/

/-- Every path exists; every external command exits 1. -/
def envAllFail : Env := ⟨fun _ => true, fun _ => 1⟩

/-- No path exists; every external command exits 0. -/
def envMissingAll : Env := ⟨fun _ => false, fun _ => 0⟩

/-- No path exists; the (empty) desktop archive command succeeds and every
other command (in particular the first link) exits 1. -/
def envC1D : Env :=
  ⟨fun _ => false, fun cmd => if cmd = archiveCommand desktopLibrary [] then 0 else 1⟩

/-- No path exists; the (empty) Android archive command for subdir `"s"`
succeeds and every other command (in particular the first link) exits 1. -/
def envC1A : Env :=
  ⟨fun _ => false, fun cmd => if cmd = archiveCommand (androidLibrary "s") [] then 0 else 1⟩

/-- Only `bytecode.cpp` exists; every external command exits 1. -/
def envC2w : Env := ⟨fun p => p == "bytecode.cpp", fun _ => 1⟩

/-- Only the stale object file `obj/bytecode.o` exists (its source does not);
every external command exits 0. -/
def envC6 : Env := ⟨fun p => p == objFor OBJ_DIR "bytecode.cpp", fun _ => 0⟩

/-- No path exists; every external command (in particular the archiver) exits 1. -/
def envArchFailAll : Env := ⟨fun _ => false, fun _ => 1⟩

/-- The armv7 compile command for `bytecode.cpp`. -/
def armv7FailCmd : String :=
  compileCommand (androidCompiler "armv7a-linux-androideabi" "21") androidCxxFlags
    androidIncludeFlags "bytecode.cpp" (objFor (androidObjDir "armv7") "bytecode.cpp")

/-- Every path exists; only the armv7 compile of `bytecode.cpp` exits 1, every
other command exits 0 — so the desktop target succeeds and the first Android
target fails. -/
def envC7 : Env := ⟨fun _ => true, fun cmd => if cmd = armv7FailCmd then 1 else 0⟩

/-! Helper lemmas. -/

/-- A string of the form `p ++ " " ++ m` whose first character is not `S`
cannot be the sentinel. -/
lemma append_space_ne_stop (p m : String) (hp : p.data.head? ≠ some 'S') :
    (p ++ " " ++ m) ≠ "STOP" := by
  intro h
  have h2 := congrArg String.data h
  rw [String.data_append, String.data_append] at h2
  have hsp : (" " : String).data = [' '] := rfl
  rw [hsp] at h2
  cases hd : p.data with
  | nil => rw [hd] at h2; simp at h2
  | cons c cs =>
    rw [hd] at h2
    simp at h2
    obtain ⟨hc, -⟩ := h2
    rw [hd] at hp
    simp [hc] at hp

/-- No formatted log message equals the sentinel: every level tag (including
the empty tag of an unknown level) is followed by a space, so the first
character is an escape character or a space, never `S`. -/
lemma logMsg_ne_stop (m l : String) : logMsg m l ≠ "STOP" := by
  unfold logMsg levelTag
  split_ifs <;> exact append_space_ne_stop _ _ (by decide)

/-- The consumer prints every formatted message enqueued before the sentinel
and stops at the sentinel. -/
lemma worker_prints (pre : List (String × String)) (rest : List String) :
    log_worker ((pre.map fun p => logMsg p.1 p.2) ++ "STOP" :: rest)
      = pre.map fun p => logMsg p.1 p.2 := by
  induction pre with
  | nil => simp [log_worker]
  | cons a as ih =>
    simp only [List.map_cons, List.cons_append, log_worker, List.takeWhile_cons] at *
    have hne : (logMsg a.1 a.2 != "STOP") = true := bne_iff_ne.mpr (logMsg_ne_stop a.1 a.2)
    rw [hne]
    simp only [if_true]
    rw [ih]

/-- The `object_files` list of one Android architecture, on every branch. -/
lemma build_objectFiles (env : Env) (arch target api subdir : String) :
    (build_android_architecture env arch target api subdir).objectFiles
      = allSources.map (objFor (androidObjDir subdir)) := by
  cases h : firstError (androidTasks env target api subdir) <;>
    simp [build_android_architecture, h]

/-- The per-source task list of one Android architecture, on every branch. -/
lemma build_tasks (env : Env) (arch target api subdir : String) :
    (build_android_architecture env arch target api subdir).tasks
      = androidTasks env target api subdir := by
  cases h : firstError (androidTasks env target api subdir) <;>
    simp [build_android_architecture, h]

/-- The Android loop visits the configured architectures in order; the names
of the targets it actually builds form an initial segment of the configured
name list. -/
lemma runAndroidLoop_names (env : Env) (archs : List (String × ArchConfig)) :
    ∃ n, ((runAndroidLoop env archs).1.map Prod.fst) = (archs.map Prod.fst).take n := by
  induction archs with
  | nil => exact ⟨0, rfl⟩
  | cons a rest ih =>
    obtain ⟨arch, config⟩ := a
    cases h : (buildOf env config).error with
    | some e => exact ⟨1, by simp [runAndroidLoop, h]⟩
    | none =>
      obtain ⟨n, hn⟩ := ih
      exact ⟨n + 1, by simp [runAndroidLoop, h, hn]⟩

/-- The Android loop walks past a block of succeeding targets unchanged: with
every target of `pre` building without error, running the loop on
`pre ++ rest` builds all of `pre` (in order) and continues with `rest`. -/
lemma runAndroidLoop_append_ok (env : Env) (pre rest : List (String × ArchConfig))
    (hpre : ∀ p ∈ pre, (buildOf env p.2).error = none) :
    runAndroidLoop env (pre ++ rest)
      = ((pre.map fun p => (p.1, buildOf env p.2)) ++ (runAndroidLoop env rest).1,
         (runAndroidLoop env rest).2) := by
  induction pre with
  | nil => simp
  | cons a pre' ih =>
    obtain ⟨arch, config⟩ := a
    have ha : (buildOf env config).error = none := hpre (arch, config) (List.mem_cons_self _ _)
    have ih2 := ih (fun p hp => hpre p (List.mem_cons_of_mem (arch, config) hp))
    simp [runAndroidLoop, ha, ih2]

/-- A failing target at the head of the Android loop halts it: only that
target is built and its error is the loop's (and hence the run's) error. -/
lemma runAndroidLoop_cons_fail (env : Env) (a : String × ArchConfig)
    (rest : List (String × ArchConfig)) (hfail : (buildOf env a.2).error.isSome = true) :
    runAndroidLoop env (a :: rest) = ([(a.1, buildOf env a.2)], (buildOf env a.2).error) := by
  obtain ⟨arch, config⟩ := a
  obtain ⟨e, he⟩ := Option.isSome_iff_exists.mp hfail
  simp [runAndroidLoop, he]

/-! Claims. -/

/-- C1, counterexample: in a run whose first (pycdas) link exits non-zero, the
first link command is issued, the pipeline raises `Failed to link`, and the
second (pycdc) link command is never issued — refuting the claim that both
link invocations are attempted even if the first fails. -/
theorem c1_counterexample :
    (desktopBuild envC1D).error = some ("Failed to link " ++ pathJoin BIN_DIR "pycdas.exe") ∧
    Event.run desktopLink1Cmd ∈ (desktopBuild envC1D).postEvents ∧
    Event.run desktopLink2Cmd ∉ (desktopBuild envC1D).postEvents := by decide

/-- C1, amended: the second link invocation is attempted only when the first
succeeds.  When every compile task passes, the archive succeeds, and the first
link command exits non-zero, the pipeline's trace ends at the first link's
ERROR message and the error raised names the first product; no second link
command is run. -/
theorem c1_amended (env : Env) (arch target api subdir : String)
    (hc : firstError (androidTasks env target api subdir) = none)
    (ha : env.runExit (archiveCommand (androidLibrary subdir)
      (androidArchiveInputs env subdir)) = 0)
    (hl : env.runExit (linkCommand (androidCompiler target api) androidCxxFlags
      androidIncludeFlags ["pycdas.cpp"] (androidLibrary subdir)
      (pathJoin (androidBinDir subdir) "pycdas")) ≠ 0) :
    (build_android_architecture env arch target api subdir).error
      = some ("Failed to link " ++ pathJoin (androidBinDir subdir) "pycdas") ∧
    (build_android_architecture env arch target api subdir).postEvents
      = [Event.put (logMsg "Creating archive..." "INFO"),
         Event.run (archiveCommand (androidLibrary subdir) (androidArchiveInputs env subdir)),
         Event.put (logMsg ("Linking " ++ pathJoin (androidBinDir subdir) "pycdas" ++ "...")
           "INFO"),
         Event.run (linkCommand (androidCompiler target api) androidCxxFlags
           androidIncludeFlags ["pycdas.cpp"] (androidLibrary subdir)
           (pathJoin (androidBinDir subdir) "pycdas")),
         Event.put (logMsg ("Failed to link " ++ pathJoin (androidBinDir subdir) "pycdas")
           "ERROR")] := by
  simp [build_android_architecture, hc, androidTail, archiveAndLink, create_archive, ha,
    compile_executable, hl]

/-- C1, witness: a concrete run reaching the amended conclusion. -/
theorem c1_witness :
    (build_android_architecture envC1A "t" "t" "21" "s").error
      = some ("Failed to link " ++ pathJoin (androidBinDir "s") "pycdas") :=
  (c1_amended envC1A "t" "t" "21" "s" (by decide) (by decide) (by decide)).1

/-- C2: if some source exists and its compile command exits non-zero, the
target's pipeline raises before archiving: the archiver input is never formed
and no post-barrier event (archive or link, command or log) occurs. -/
theorem c2 (env : Env) (arch target api subdir : String)
    (h : ∃ src ∈ allSources, env.pathExists src = true ∧
      env.runExit (compileCommand (androidCompiler target api) androidCxxFlags
        androidIncludeFlags src (objFor (androidObjDir subdir) src)) ≠ 0) :
    (build_android_architecture env arch target api subdir).archiveInputs = none ∧
    (build_android_architecture env arch target api subdir).postEvents = [] ∧
    (build_android_architecture env arch target api subdir).error.isSome = true := by
  obtain ⟨src, hmem, hex, hfail⟩ := h
  have htask : (compile_source env (androidCompiler target api) androidCxxFlags
      androidIncludeFlags src (objFor (androidObjDir subdir) src)).2.isSome := by
    simp [compile_source, hex, hfail]
  have hfe : firstError (androidTasks env target api subdir) ≠ none := by
    intro hnone
    rw [firstError, List.findSome?_eq_none_iff] at hnone
    have hmem2 : (compile_source env (androidCompiler target api) androidCxxFlags
        androidIncludeFlags src (objFor (androidObjDir subdir) src))
          ∈ androidTasks env target api subdir := by
      rw [androidTasks]
      exact List.mem_map_of_mem _ hmem
    rw [hnone _ hmem2] at htask
    simp at htask
  cases hfe2 : firstError (androidTasks env target api subdir) with
  | none => exact absurd hfe2 hfe
  | some e => simp [build_android_architecture, hfe2]

/-- C2, witness: with only `bytecode.cpp` present and every command failing,
the pipeline raises with no archive or link activity. -/
theorem c2_witness :
    (build_android_architecture envC2w "t" "t" "21" "s").postEvents = [] ∧
    (build_android_architecture envC2w "t" "t" "21" "s").error.isSome = true :=
  (fun h => ⟨h.2.1, h.2.2⟩)
    (c2 envC2w "t" "t" "21" "s" ⟨"bytecode.cpp", by decide, by decide, by decide⟩)

/-- C3, counterexample: on a run whose desktop build raises a fatal compile
error, the sentinel is never enqueued and the consumer thread is never joined
— refuting the claim that this holds on every execution path. -/
theorem c3_counterexample :
    (main envAllFail).sentinel = false ∧ (main envAllFail).joined = false ∧
    (main envAllFail).error.isSome = true := by decide

/-- C3, amended: the sentinel is enqueued (exactly once) and the consumer
thread joined precisely on runs where no stage raises a fatal error; on any
fatal path the program exits by exception without the sentinel or the join
(the consumer is a daemon thread). -/
theorem c3_amended (env : Env) :
    (main env).sentinel = (main env).error.isNone ∧
    (main env).joined = (main env).error.isNone := by
  unfold main
  cases hd : (desktopBuild env).error with
  | some e => simp
  | none =>
    cases h2 : (runAndroidLoop env ARCHITECTURES).2 with
    | some e => simp
    | none => simp

/-- C4: the object-file list built by the compile stage has exactly the length
of the source list, and its `i`-th entry is the object path derived from the
`i`-th source — order is fixed at submission time, independent of the
environment (and hence of task completion order). -/
theorem c4 (env : Env) (arch target api subdir : String) :
    (build_android_architecture env arch target api subdir).objectFiles.length
      = allSources.length ∧
    ∀ i : Nat, (build_android_architecture env arch target api subdir).objectFiles[i]?
      = (allSources[i]?).map (objFor (androidObjDir subdir)) := by
  refine ⟨?_, ?_⟩
  · rw [build_objectFiles, List.length_map]
  · intro i
    rw [build_objectFiles, List.getElem?_map]

/-- C5: a missing source's task runs no external command, enqueues exactly one
WARNING naming the file, raises nothing, and its object-file entry still sits
at its original position in the returned sequence. -/
theorem c5 (env : Env) (arch target api subdir : String) (i : Nat) (src : String)
    (hsrc : allSources[i]? = some src) (hmiss : env.pathExists src = false) :
    (build_android_architecture env arch target api subdir).tasks[i]?
      = some ([Event.put (logMsg ("Skipping missing file: " ++ src) "WARNING")], none) ∧
    (build_android_architecture env arch target api subdir).objectFiles[i]?
      = some (objFor (androidObjDir subdir) src) := by
  constructor
  · rw [build_tasks, androidTasks, List.getElem?_map, hsrc]
    simp [compile_source, hmiss]
  · rw [build_objectFiles, List.getElem?_map, hsrc]
    rfl

/-- C5, witness: the first source, absent, yields exactly one WARNING task. -/
theorem c5_witness :
    (build_android_architecture envMissingAll "t" "t" "21" "s").tasks[0]?
      = some ([Event.put (logMsg ("Skipping missing file: " ++ "bytecode.cpp") "WARNING")],
          none) :=
  (c5 envMissingAll "t" "t" "21" "s" 0 "bytecode.cpp" (by decide) (by decide)).1

/-- C6, counterexample: `bytecode.cpp` is absent (its task is a skip, i.e. the
compile did not complete successfully) yet a stale `obj/bytecode.o` on disk is
passed to the archiver — refuting the claim that unsuccessful objects are
excluded from the archive command. -/
theorem c6_counterexample :
    (desktopBuild envC6).tasks[0]?
      = some ([Event.put (logMsg ("Skipping missing file: " ++ "bytecode.cpp") "WARNING")],
          none) ∧
    (desktopBuild envC6).archiveInputs = some [objFor OBJ_DIR "bytecode.cpp"] := by decide

/-- C6, amended: the archiver input is exactly the objects whose file exists
on disk at archive time; compile success is not consulted. -/
theorem c6_amended (env : Env) (arch target api subdir : String)
    (hc : firstError (androidTasks env target api subdir) = none) :
    (build_android_architecture env arch target api subdir).archiveInputs
      = some ((allSources.map (objFor (androidObjDir subdir))).filter
          (fun obj => env.pathExists obj)) := by
  simp [build_android_architecture, hc, androidArchiveInputs]

/-- C6, witness: a concrete run reaching the archive stage with the
existence-filtered input. -/
theorem c6_witness :
    (build_android_architecture envMissingAll "t" "t" "21" "s").archiveInputs
      = some ((allSources.map (objFor (androidObjDir "s"))).filter
          (fun obj => envMissingAll.pathExists obj)) :=
  c6_amended envMissingAll "t" "t" "21" "s" (by decide)

/-- C7, counterexample: when the desktop target fails, no Android target is
processed at all — refuting the claim that a failed target does not halt the
processing of subsequent targets. -/
theorem c7_counterexample :
    (main envAllFail).desktop.error.isSome = true ∧
    (main envAllFail).android = [] ∧
    (main envAllFail).exitZero = false := by decide

/-- C7, amended: targets are processed sequentially in the fixed configured
order (desktop first; the Android targets built form an initial segment of
the configured list, in order), but the first fatal target aborts the run:
a desktop failure prevents every Android build; a failing Android target —
all targets before it having succeeded — is the last target processed, the
ones after it are not built, and its error becomes the run's error; the
process exits zero exactly when no target failed. -/
theorem c7_amended :
    (∀ env : Env,
      ∃ n, ((main env).android.map Prod.fst) = (ARCHITECTURES.map Prod.fst).take n) ∧
    (∀ env : Env, (main env).exitZero = (main env).error.isNone) ∧
    (∀ env : Env, (main env).desktop.error.isSome = true → (main env).android = []) ∧
    (∀ (env : Env) (pre : List (String × ArchConfig)) (arch : String) (config : ArchConfig)
      (post : List (String × ArchConfig)),
      ARCHITECTURES = pre ++ (arch, config) :: post →
      (∀ p ∈ pre, (buildOf env p.2).error = none) →
      (buildOf env config).error.isSome = true →
      (desktopBuild env).error = none →
      (main env).android
          = (pre.map fun p => (p.1, buildOf env p.2)) ++ [(arch, buildOf env config)] ∧
        (main env).error = (buildOf env config).error) := by
  refine ⟨?_, ?_, ?_, ?_⟩
  · intro env
    unfold main
    cases hd : (desktopBuild env).error with
    | some e => exact ⟨0, rfl⟩
    | none =>
      cases h2 : (runAndroidLoop env ARCHITECTURES).2 with
      | some e => exact runAndroidLoop_names env ARCHITECTURES
      | none => exact runAndroidLoop_names env ARCHITECTURES
  · intro env
    unfold main
    cases hd : (desktopBuild env).error with
    | some e => rfl
    | none =>
      cases h2 : (runAndroidLoop env ARCHITECTURES).2 with
      | some e => rfl
      | none => rfl
  · intro env
    unfold main
    cases hd : (desktopBuild env).error with
    | some e => intro _; rfl
    | none =>
      cases h2 : (runAndroidLoop env ARCHITECTURES).2 with
      | some e =>
        intro hds
        rw [hd] at hds
        simp at hds
      | none =>
        intro hds
        rw [hd] at hds
        simp at hds
  · intro env pre arch config post hsplit hpre hfail hdesk
    have hloop : runAndroidLoop env ARCHITECTURES
        = ((pre.map fun p => (p.1, buildOf env p.2)) ++ [(arch, buildOf env config)],
           (buildOf env config).error) := by
      rw [hsplit, runAndroidLoop_append_ok env pre ((arch, config) :: post) hpre,
        runAndroidLoop_cons_fail env (arch, config) post hfail]
    obtain ⟨e, he⟩ := Option.isSome_iff_exists.mp hfail
    unfold main
    simp [hdesk, hloop, he]

set_option maxRecDepth 40000 in
/-- C7, witness: the halting branches of the amended claim at concrete runs —
a failed desktop build leaves every Android target unbuilt, and with a
succeeding desktop but a failing first Android target (armv7), only armv7 is
processed (aarch64 is not) and its error becomes the run's error. -/
theorem c7_witness :
    ((main envAllFail).android = []) ∧
    ((main envC7).android
        = [("armv7", buildOf envC7 ⟨"armv7a-linux-androideabi", "21", "armv7"⟩)]) ∧
    ((main envC7).error
        = (buildOf envC7 ⟨"armv7a-linux-androideabi", "21", "armv7"⟩).error) :=
  ⟨c7_amended.2.2.1 envAllFail (by decide),
   c7_amended.2.2.2 envC7 [] "armv7" ⟨"armv7a-linux-androideabi", "21", "armv7"⟩
     [("aarch64", ⟨"aarch64-linux-android", "21", "aarch64"⟩)] rfl (by simp) (by decide)
     (by decide)⟩

/-- C8, counterexample: an archive failure aborts the desktop pipeline with
exactly one ERROR message, but that message is the fixed text `Failed to
create archive`, which names neither the archive file nor the target —
refuting the claim that every fatal ERROR names the offending file or
target. -/
theorem c8_counterexample :
    (desktopBuild envArchFailAll).error = some "Failed to create archive" ∧
    (desktopBuild envArchFailAll).postEvents
      = [Event.put (logMsg "Creating archive..." "INFO"),
         Event.run (archiveCommand desktopLibrary []),
         Event.put (logMsg "Failed to create archive" "ERROR")] ∧
    ¬ ("libpycxx".toList <:+: (logMsg "Failed to create archive" "ERROR").toList) ∧
    ¬ ("desktop".toList <:+: (logMsg "Failed to create archive" "ERROR").toList) := by decide

/-- C8, amended: every fatal condition enqueues exactly one ERROR message and
then raises — compile and link failures name the offending file in it, while
the archive failure's ERROR is a fixed message naming nothing — and a missing
source (WARNING) never raises. -/
theorem c8_amended :
    (∀ (env : Env) (compiler cxx_flags include_flags source_file output_file : String),
      env.pathExists source_file = true →
      env.runExit (compileCommand compiler cxx_flags include_flags source_file output_file)
        ≠ 0 →
      compile_source env compiler cxx_flags include_flags source_file output_file =
        ([Event.put (logMsg ("Compiling " ++ source_file ++ "...") "INFO"),
          Event.run (compileCommand compiler cxx_flags include_flags source_file output_file),
          Event.put (logMsg ("Failed to compile " ++ source_file) "ERROR")],
         some ("Failed to compile " ++ source_file))) ∧
    (∀ (env : Env) (output_archive : String) (object_files : List String),
      env.runExit (archiveCommand output_archive object_files) ≠ 0 →
      create_archive env output_archive object_files =
        ([Event.put (logMsg "Creating archive..." "INFO"),
          Event.run (archiveCommand output_archive object_files),
          Event.put (logMsg "Failed to create archive" "ERROR")],
         some "Failed to create archive")) ∧
    (∀ (env : Env) (compiler cxx_flags include_flags output_executable : String)
      (source_files : List String) (libraries : String),
      env.runExit (linkCommand compiler cxx_flags include_flags source_files libraries
        output_executable) ≠ 0 →
      compile_executable env compiler cxx_flags include_flags output_executable source_files
        libraries =
        ([Event.put (logMsg ("Linking " ++ output_executable ++ "...") "INFO"),
          Event.run (linkCommand compiler cxx_flags include_flags source_files libraries
            output_executable),
          Event.put (logMsg ("Failed to link " ++ output_executable) "ERROR")],
         some ("Failed to link " ++ output_executable))) ∧
    (∀ (env : Env) (compiler cxx_flags include_flags source_file output_file : String),
      env.pathExists source_file = false →
      (compile_source env compiler cxx_flags include_flags source_file output_file).2
        = none) := by
  refine ⟨?_, ?_, ?_, ?_⟩
  · intro env compiler cxx_flags include_flags source_file output_file hex hfail
    simp [compile_source, hex, hfail]
  · intro env output_archive object_files hfail
    simp [create_archive, hfail]
  · intro env compiler cxx_flags include_flags output_executable source_files libraries hfail
    simp [compile_executable, hfail]
  · intro env compiler cxx_flags include_flags source_file output_file hmiss
    simp [compile_source, hmiss]

/-- C8, witness: each branch of the amended claim at concrete inputs. -/
theorem c8_witness :
    (compile_source envAllFail "g++" "-W" "-I." "a.cpp" "a.o" =
      ([Event.put (logMsg ("Compiling " ++ "a.cpp" ++ "...") "INFO"),
        Event.run (compileCommand "g++" "-W" "-I." "a.cpp" "a.o"),
        Event.put (logMsg ("Failed to compile " ++ "a.cpp") "ERROR")],
       some ("Failed to compile " ++ "a.cpp"))) ∧
    (create_archive envAllFail "lib.a" ["a.o"] =
      ([Event.put (logMsg "Creating archive..." "INFO"),
        Event.run (archiveCommand "lib.a" ["a.o"]),
        Event.put (logMsg "Failed to create archive" "ERROR")],
       some "Failed to create archive")) ∧
    (compile_executable envAllFail "g++" "-W" "-I." "out.exe" ["m.cpp"] "lib.a" =
      ([Event.put (logMsg ("Linking " ++ "out.exe" ++ "...") "INFO"),
        Event.run (linkCommand "g++" "-W" "-I." ["m.cpp"] "lib.a" "out.exe"),
        Event.put (logMsg ("Failed to link " ++ "out.exe") "ERROR")],
       some ("Failed to link " ++ "out.exe"))) ∧
    ((compile_source envMissingAll "g++" "-W" "-I." "a.cpp" "a.o").2 = none) :=
  ⟨c8_amended.1 envAllFail "g++" "-W" "-I." "a.cpp" "a.o" (by decide) (by decide),
   c8_amended.2.1 envAllFail "lib.a" ["a.o"] (by decide),
   c8_amended.2.2.1 envAllFail "g++" "-W" "-I." "out.exe" ["m.cpp"] "lib.a" (by decide),
   c8_amended.2.2.2 envMissingAll "g++" "-W" "-I." "a.cpp" "a.o" (by decide)⟩

/-- C9: the `arch` parameter of `build_android_architecture` has no effect:
for any two values of it, with the other arguments and the environment equal,
the whole pipeline outcome (directories, commands, log messages, errors) is
identical. -/
theorem c9 (env : Env) (arch1 arch2 target api subdir : String) :
    build_android_architecture env arch1 target api subdir
      = build_android_architecture env arch2 target api subdir := rfl

/-- C10: no message produced through `log` can equal the sentinel `"STOP"`
(every formatted message starts with the level tag and a space), so the
consumer prints every message enqueued before the sentinel and terminates
exactly at the sentinel. -/
theorem c10 :
    (∀ message level, logMsg message level ≠ "STOP") ∧
    (∀ (pre : List (String × String)) (rest : List String),
      log_worker ((pre.map fun p => logMsg p.1 p.2) ++ "STOP" :: rest)
        = pre.map fun p => logMsg p.1 p.2) :=
  ⟨logMsg_ne_stop, worker_prints⟩

end CompilePy
